import Mathlib

/-
Verification of the messenger / execution-environment core of
`videoflow/environments/queues.py`.

The embedding is shallow: the Python dict used as the message envelope
becomes an association list, a bounded `multiprocessing.Queue(10)`
becomes a capacity-tagged list, and each messenger method becomes a
pure function from messenger state to an outcome.  A blocking `put` on
a full queue is modelled by the outcome `wouldBlock` (the operation has
not completed; nothing was enqueued and nothing was lost), a
non-blocking `put` on a full queue by `raisedFull` (the `Full`
exception, which the realtime messenger catches and swallows).
-/

set_option autoImplicit false

namespace Videoflow

/-- Message envelope: the Python dict mapping node id to that node's last value,
modelled as an association list whose first binding for a key is the visible one. -/
abbrev Env (α : Type) : Type := List (Nat × α)

/-- Dict lookup `d[a]`: first binding for `a`; `none` models a raised `KeyError`. -/
def Env.get? {α : Type} : Env α → Nat → Option α
  | [], _ => none
  | (k, v) :: rest, a => if k = a then some v else Env.get? rest a

/-- Dict assignment `d[k] = v`: replace the binding for `k` when present,
append a fresh binding otherwise (Python inserts new keys at the end). -/
def Env.set {α : Type} : Env α → Nat → α → Env α
  | [], k, v => [(k, v)]
  | (k', v') :: rest, k, v =>
    if k' = k then (k, v) :: rest else (k', v') :: Env.set rest k v

/-- A bounded FIFO channel: `multiprocessing.Queue(capacity)`. -/
structure BQueue (α : Type) where
  capacity : Nat
  items : List α
deriving DecidableEq

/-- The queue refuses further items once `capacity` many are enqueued. -/
def BQueue.isFull {α : Type} (q : BQueue α) : Bool :=
  decide (q.capacity ≤ q.items.length)

/-- Append one item at the tail of the queue. -/
def BQueue.enqueue {α : Type} (q : BQueue α) (x : α) : BQueue α :=
  { q with items := q.items ++ [x] }

/-- Blocking `Queue.get()`: pop the head; `none` means the caller blocks on an
empty queue. -/
def BQueue.get? {α : Type} (q : BQueue α) : Option (α × BQueue α) :=
  match q.items with
  | [] => none
  | x :: rest => some (x, { q with items := rest })

/-- Outcome of one `Queue.put` attempt. -/
inductive PutResult (α : Type) where
  | enqueued (q : BQueue α)
  | wouldBlock
  | raisedFull
deriving DecidableEq

/-- `Queue.put(x, block=True)`: enqueue when there is room, otherwise wait
(`wouldBlock`: the state is unchanged and the item is retained by the caller). -/
def BQueue.putBlocking {α : Type} (q : BQueue α) (x : α) : PutResult α :=
  if q.isFull then PutResult.wouldBlock else PutResult.enqueued (q.enqueue x)

/-- `Queue.put(x, block=False)`: enqueue when there is room, otherwise raise
`Full` immediately, leaving the queue unchanged. -/
def BQueue.putNonBlocking {α : Type} (q : BQueue α) (x : α) : PutResult α :=
  if q.isFull then PutResult.raisedFull else PutResult.enqueued (q.enqueue x)

/-- State of one messenger (fields of both `BatchprocessingQueueMessenger`
and `RealtimeQueueMessenger`): own node id, the ids of the node's parents,
the outbound channel `_task_queue`, the inbound channel `_parent_task_queue`,
and `_last_message_received`.  Channel items are `Option (Env α)` because the
Python code can enqueue `None` (a passthrough before any receive). -/
structure MsgrState (α : Type) where
  nodeId : Nat
  parentIds : List Nat
  taskQueue : BQueue (Option (Env α))
  parentQueue : BQueue (Option (Env α))
  lastReceived : Option (Env α)
deriving DecidableEq

/-- The part of a computation node the messenger constructor reads:
`node.id` and `node.parents` (a possibly absent list of parent nodes,
of which only the ids are taken). -/
structure NodeInfo where
  id : Nat
  parents : Option (List Nat)
deriving DecidableEq

/-- Constructor body shared by both messenger classes: record the channels,
derive `_parent_nodes_ids` from `node.parents` (empty when absent), and start
with `_last_message_received = None`. -/
def mkMsgrState {α : Type} (node : NodeInfo)
    (taskQueue parentQueue : BQueue (Option (Env α))) : MsgrState α :=
  { nodeId := node.id
  , parentIds := match node.parents with | none => [] | some ps => ps
  , taskQueue := taskQueue
  , parentQueue := parentQueue
  , lastReceived := none }

/-- Outcome of one messenger send method.  `sent` and `droppedSend` are normal
returns (the latter after the realtime messenger swallowed `Full`);
`blockedSend` means the method is still waiting inside a blocking `put`
(the carried state shows the mutations made before the `put`). -/
inductive SendOutcome (α : Type) where
  | sent (s : MsgrState α)
  | blockedSend (s : MsgrState α)
  | droppedSend (s : MsgrState α)

/-- Messenger state in which a send outcome leaves the caller. -/
def SendOutcome.state {α : Type} : SendOutcome α → MsgrState α
  | SendOutcome.sent s => s
  | SendOutcome.blockedSend s => s
  | SendOutcome.droppedSend s => s

/-- True when the outcome discarded the value (swallowed `Full`). -/
def SendOutcome.isDropped {α : Type} : SendOutcome α → Bool
  | SendOutcome.droppedSend _ => true
  | _ => false

/-- True when the outcome is a wait inside a blocking `put`. -/
def SendOutcome.isBlockedWait {α : Type} : SendOutcome α → Bool
  | SendOutcome.blockedSend _ => true
  | _ => false

/-- Outcome of one `receive_message` call: block on an empty inbound channel,
return the parent values, or raise (missing key, or subscripting `None`). -/
inductive RecvOutcome (α : Type) where
  | blockedRecv
  | ok (inputs : List α) (s : MsgrState α)
  | raisedError (s : MsgrState α)

/-- Messenger state in which a receive outcome leaves the caller. -/
def RecvOutcome.state {α : Type} (orig : MsgrState α) : RecvOutcome α → MsgrState α
  | RecvOutcome.blockedRecv => orig
  | RecvOutcome.ok _ s => s
  | RecvOutcome.raisedError s => s

/-- The list comprehension `[input_message_dict[a] for a in parent_ids]`:
`none` models the raised exception (`KeyError` on a missing id, `TypeError`
when the dict is `None` and there is at least one id to look up). -/
def lookupAll {α : Type} : Option (Env α) → List Nat → Option (List α)
  | _, [] => some []
  | none, _ :: _ => none
  | some env, a :: rest =>
    match Env.get? env a, lookupAll (some env) rest with
    | some v, some vs => some (v :: vs)
    | _, _ => none

namespace BatchprocessingQueueMessenger

/-- `publish_message`: stamp the value into `_last_message_received` (or build
a fresh one-entry dict when nothing was received yet) and `put` it blocking. -/
def publish_message {α : Type} (s : MsgrState α) (message : α) : SendOutcome α :=
  match s.lastReceived with
  | none =>
    let msg : Env α := [(s.nodeId, message)]
    match s.taskQueue.putBlocking (some msg) with
    | PutResult.enqueued q => SendOutcome.sent { s with taskQueue := q }
    | _ => SendOutcome.blockedSend s
  | some env =>
    let env2 := Env.set env s.nodeId message
    let s2 := { s with lastReceived := some env2 }
    match s2.taskQueue.putBlocking (some env2) with
    | PutResult.enqueued q => SendOutcome.sent { s2 with taskQueue := q }
    | _ => SendOutcome.blockedSend s2

/-- `check_for_termination`: `self._termination_event.is_set()`. -/
def check_for_termination (terminationEvent : Bool) : Bool :=
  terminationEvent

/-- `publish_termination_message`: identical to `publish_message`. -/
def publish_termination_message {α : Type} (s : MsgrState α) (message : α) :
    SendOutcome α :=
  publish_message s message

/-- `passthrough_message`: blocking `put` of `_last_message_received` as is. -/
def passthrough_message {α : Type} (s : MsgrState α) : SendOutcome α :=
  match s.taskQueue.putBlocking s.lastReceived with
  | PutResult.enqueued q => SendOutcome.sent { s with taskQueue := q }
  | _ => SendOutcome.blockedSend s

/-- `passthrough_termination_message`: identical to `passthrough_message`. -/
def passthrough_termination_message {α : Type} (s : MsgrState α) : SendOutcome α :=
  passthrough_message s

/-- `receive_message`: blocking `get` from the inbound channel, record the
envelope as `_last_message_received`, then index it at every parent id. -/
def receive_message {α : Type} (s : MsgrState α) : RecvOutcome α :=
  match s.parentQueue.get? with
  | none => RecvOutcome.blockedRecv
  | some (input_message_dict, q) =>
    let s2 := { s with parentQueue := q, lastReceived := input_message_dict }
    match lookupAll input_message_dict s.parentIds with
    | some inputs => RecvOutcome.ok inputs s2
    | none => RecvOutcome.raisedError s2

end BatchprocessingQueueMessenger

namespace RealtimeQueueMessenger

/-- `publish_message`: same envelope construction as the batch messenger, but
the `put` is non-blocking and wrapped in `try ... except: pass`, so a full
channel drops the send. -/
def publish_message {α : Type} (s : MsgrState α) (message : α) : SendOutcome α :=
  match s.lastReceived with
  | none =>
    let msg : Env α := [(s.nodeId, message)]
    match s.taskQueue.putNonBlocking (some msg) with
    | PutResult.enqueued q => SendOutcome.sent { s with taskQueue := q }
    | _ => SendOutcome.droppedSend s
  | some env =>
    let env2 := Env.set env s.nodeId message
    let s2 := { s with lastReceived := some env2 }
    match s2.taskQueue.putNonBlocking (some env2) with
    | PutResult.enqueued q => SendOutcome.sent { s2 with taskQueue := q }
    | _ => SendOutcome.droppedSend s2

/-- `check_for_termination`: `self._termination_event.is_set()`. -/
def check_for_termination (terminationEvent : Bool) : Bool :=
  terminationEvent

/-- `publish_termination_message`: same construction, but the `put` is
blocking (`block=True`); the surrounding `try` never sees a `Full`. -/
def publish_termination_message {α : Type} (s : MsgrState α) (message : α) :
    SendOutcome α :=
  match s.lastReceived with
  | none =>
    let msg : Env α := [(s.nodeId, message)]
    match s.taskQueue.putBlocking (some msg) with
    | PutResult.enqueued q => SendOutcome.sent { s with taskQueue := q }
    | _ => SendOutcome.blockedSend s
  | some env =>
    let env2 := Env.set env s.nodeId message
    let s2 := { s with lastReceived := some env2 }
    match s2.taskQueue.putBlocking (some env2) with
    | PutResult.enqueued q => SendOutcome.sent { s2 with taskQueue := q }
    | _ => SendOutcome.blockedSend s2

/-- `passthrough_message`: non-blocking `put` of `_last_message_received`;
a `Full` is swallowed and the send dropped. -/
def passthrough_message {α : Type} (s : MsgrState α) : SendOutcome α :=
  match s.taskQueue.putNonBlocking s.lastReceived with
  | PutResult.enqueued q => SendOutcome.sent { s with taskQueue := q }
  | _ => SendOutcome.droppedSend s

/-- `passthrough_termination_message`: blocking `put` of
`_last_message_received`. -/
def passthrough_termination_message {α : Type} (s : MsgrState α) : SendOutcome α :=
  match s.taskQueue.putBlocking s.lastReceived with
  | PutResult.enqueued q => SendOutcome.sent { s with taskQueue := q }
  | _ => SendOutcome.blockedSend s

/-- `receive_message`: identical body to the batch messenger's. -/
def receive_message {α : Type} (s : MsgrState α) : RecvOutcome α :=
  match s.parentQueue.get? with
  | none => RecvOutcome.blockedRecv
  | some (input_message_dict, q) =>
    let s2 := { s with parentQueue := q, lastReceived := input_message_dict }
    match lookupAll input_message_dict s.parentIds with
    | some inputs => RecvOutcome.ok inputs s2
    | none => RecvOutcome.raisedError s2

end RealtimeQueueMessenger

/-- `multiprocessing.Event()` starts unset. -/
def newTerminationEvent : Bool := false

/-- `Event.set()`. -/
def eventSet (_e : Bool) : Bool := true

/-- `Event.is_set()`. -/
def eventIsSet (e : Bool) : Bool := e

namespace QueueExecutionEnvironment

/-- `signal_flow_termination`: `self._termination_event.set()`. -/
def signal_flow_termination (terminationEvent : Bool) : Bool :=
  eventSet terminationEvent

end QueueExecutionEnvironment

/-- Shared state feeding one run: the shared termination event and (for the
termination claims) one messenger of each policy that reads it. -/
structure SysState (α : Type) where
  term : Bool
  batchM : MsgrState α
  rtM : MsgrState α

/-- The steady-state operations of a run: every send/receive method of both
messengers, the environment's `signal_flow_termination`, and
`join_task_processes` (which touches no shared flag). -/
inductive Op (α : Type) where
  | batchPublish (v : α)
  | batchPublishTermination (v : α)
  | batchPassthrough
  | batchPassthroughTermination
  | batchReceive
  | rtPublish (v : α)
  | rtPublishTermination (v : α)
  | rtPassthrough
  | rtPassthroughTermination
  | rtReceive
  | signalFlowTermination
  | joinTaskProcesses

/-- Effect of one operation on the shared run state: each messenger method
rewrites only that messenger's own fields; only `signal_flow_termination`
writes the termination event. -/
def applyOp {α : Type} (s : SysState α) : Op α → SysState α
  | Op.batchPublish v =>
    { s with batchM := (BatchprocessingQueueMessenger.publish_message s.batchM v).state }
  | Op.batchPublishTermination v =>
    { s with batchM := (BatchprocessingQueueMessenger.publish_termination_message s.batchM v).state }
  | Op.batchPassthrough =>
    { s with batchM := (BatchprocessingQueueMessenger.passthrough_message s.batchM).state }
  | Op.batchPassthroughTermination =>
    { s with batchM := (BatchprocessingQueueMessenger.passthrough_termination_message s.batchM).state }
  | Op.batchReceive =>
    { s with batchM := (BatchprocessingQueueMessenger.receive_message s.batchM).state s.batchM }
  | Op.rtPublish v =>
    { s with rtM := (RealtimeQueueMessenger.publish_message s.rtM v).state }
  | Op.rtPublishTermination v =>
    { s with rtM := (RealtimeQueueMessenger.publish_termination_message s.rtM v).state }
  | Op.rtPassthrough =>
    { s with rtM := (RealtimeQueueMessenger.passthrough_message s.rtM).state }
  | Op.rtPassthroughTermination =>
    { s with rtM := (RealtimeQueueMessenger.passthrough_termination_message s.rtM).state }
  | Op.rtReceive =>
    { s with rtM := (RealtimeQueueMessenger.receive_message s.rtM).state s.rtM }
  | Op.signalFlowTermination =>
    { s with term := QueueExecutionEnvironment.signal_flow_termination s.term }
  | Op.joinTaskProcesses => s

/-- Role of a node, deciding which task class wraps it. -/
inductive NodeKind where
  | producer
  | processor
  | consumer
deriving DecidableEq

/-- `task.device_type` values (constants `GPU` / `CPU`). -/
inductive DeviceType where
  | gpu
  | cpu
deriving DecidableEq

/-- One `(node, node_id, parent_node_id, has_children)` entry of `tasks_data`,
together with the two node attributes the process-creation loop reads:
the device type and whether `change_device(CPU)` succeeds (does not raise). -/
structure TaskData where
  kind : NodeKind
  nodeId : Nat
  parentId : Option Nat
  hasChildren : Bool
  deviceType : DeviceType
  changeDeviceSucceeds : Bool
deriving DecidableEq

/-- An execution unit as created by step 2 of
`_al_create_and_start_processes`: a process bound to a GPU index, or a plain
CPU process. -/
inductive ProcSpec where
  | gpuProc (gpuId : Int)
  | cpuProc
deriving DecidableEq

/-- Step 2 of `_al_create_and_start_processes`: walk the tasks in topology
order threading `self._next_gpu` (initially `-1`); a GPU processor task bumps
the counter and gets that index when it is below `self._nb_available_gpus`,
otherwise the task is downgraded to CPU; a failing downgrade raises
`RuntimeError`, which aborts the loop (the second component carries the
message; the first the processes appended before the failure). -/
def create_processes :
    List TaskData → Int → Int → List ProcSpec × Option String
  | [], _, _ => ([], none)
  | task :: rest, next_gpu, nb_available_gpus =>
    if task.kind = NodeKind.processor then
      if task.deviceType = DeviceType.gpu then
        let ng := next_gpu + 1
        if ng < nb_available_gpus then
          let r := create_processes rest ng nb_available_gpus
          (ProcSpec.gpuProc ng :: r.1, r.2)
        else
          if task.changeDeviceSucceeds then
            let r := create_processes rest ng nb_available_gpus
            (ProcSpec.cpuProc :: r.1, r.2)
          else
            ([], some "No GPU available to allocate")
      else
        let r := create_processes rest next_gpu nb_available_gpus
        (ProcSpec.cpuProc :: r.1, r.2)
    else
      let r := create_processes rest next_gpu nb_available_gpus
      (ProcSpec.cpuProc :: r.1, r.2)

/-- Accelerator assignment as the specification words it: `seen` counts the
accelerator-requesting transform tasks already handled, so the `(seen + 1)`-th
requesting task (1-based) receives index `seen` when `seen < k` for `k`
detected accelerators, later requesting tasks are downgraded to CPU, and a
task that cannot downgrade fails startup fatally. -/
def spec_assignment :
    List TaskData → Nat → Nat → List ProcSpec × Option String
  | [], _, _ => ([], none)
  | task :: rest, seen, k =>
    if task.kind = NodeKind.processor ∧ task.deviceType = DeviceType.gpu then
      if seen < k then
        let r := spec_assignment rest (seen + 1) k
        (ProcSpec.gpuProc (seen : Int) :: r.1, r.2)
      else
        if task.changeDeviceSucceeds then
          let r := spec_assignment rest (seen + 1) k
          (ProcSpec.cpuProc :: r.1, r.2)
        else
          ([], some "No GPU available to allocate")
    else
      let r := spec_assignment rest seen k
      (ProcSpec.cpuProc :: r.1, r.2)

/-- Observable startup actions of `_al_create_and_start_processes`, in
program order. -/
inductive StartupEv where
  | channelCreated (id : Nat)
  | terminationEventCreated
  | messengerCreated (id : Nat)
  | taskCreated (id : Nat)
  | processCreated (idx : Nat)
  | processStarted (idx : Nat)
deriving DecidableEq

/-- Event classifiers used by the startup-ordering statements. -/
def isChannelCreated : StartupEv → Bool
  | StartupEv.channelCreated _ => true
  | _ => false

/-- True on the step-1 events: messenger or task construction. -/
def isConstructionEvent : StartupEv → Bool
  | StartupEv.messengerCreated _ => true
  | StartupEv.taskCreated _ => true
  | _ => false

/-- True on step-2 events: a `Process` object was created. -/
def isProcessCreated : StartupEv → Bool
  | StartupEv.processCreated _ => true
  | _ => false

/-- True on step-3 events: `proc.start()` ran. -/
def isProcessStarted : StartupEv → Bool
  | StartupEv.processStarted _ => true
  | _ => false

/-- Events emitted by one iteration of the step-1 loop: messenger, then task. -/
def constructionEvsOf (d : TaskData) : List StartupEv :=
  [StartupEv.messengerCreated d.nodeId, StartupEv.taskCreated d.nodeId]

/-- Result of running `_al_create_and_start_processes`: the linear trace of
its observable actions, the processes built, and the `RuntimeError` if the
GPU loop raised one. -/
structure EnvResult where
  trace : List StartupEv
  procs : List ProcSpec
  error : Option String

/-- `_al_create_and_start_processes`: step 0 creates one bounded channel per
entry and the termination event, step 1 builds a messenger and a task per
entry, step 2 creates the processes (possibly raising on GPU exhaustion),
and only step 3 starts them — which is skipped entirely when step 2 raised. -/
def al_create_and_start_processes
    (tasks_data : List TaskData) (nb_available_gpus : Int) : EnvResult :=
  let channelEvs := tasks_data.map (fun d => StartupEv.channelCreated d.nodeId)
  let taskEvs := tasks_data.flatMap constructionEvsOf
  let r := create_processes tasks_data (-1) nb_available_gpus
  let createdEvs := (List.range r.1.length).map StartupEv.processCreated
  match r.2 with
  | some e =>
    { trace := channelEvs ++ [StartupEv.terminationEventCreated] ++ taskEvs ++ createdEvs
    , procs := r.1
    , error := some e }
  | none =>
    { trace := channelEvs ++ [StartupEv.terminationEventCreated] ++ taskEvs ++ createdEvs
        ++ (List.range r.1.length).map StartupEv.processStarted
    , procs := r.1
    , error := none }

/-- `join_task_processes` under an interrupt schedule: entry `n` of
`interrupts` is the number of `KeyboardInterrupt`s delivered while waiting on
that process.  The first `join` of a process is guarded by `try`, so one
interrupt is absorbed and the `join` retried; an interrupt during the retry
propagates and abandons the loop.  Returns the indices of the processes whose
`join` completed, in order, and whether an interrupt escaped to the caller. -/
def join_loop : List Nat → Nat → List Nat × Bool
  | [], _ => ([], false)
  | n :: rest, i =>
    if n = 0 then
      let r := join_loop rest (i + 1)
      (i :: r.1, r.2)
    else
      if n = 1 then
        let r := join_loop rest (i + 1)
        (i :: r.1, r.2)
      else
        ([], true)

/-- `join_task_processes`: iterate `join_loop` from the first process. -/
def join_task_processes (interrupts : List Nat) : List Nat × Bool :=
  join_loop interrupts 0

/-- Every event of kind `p` occurs strictly before every event of kind `q`
in the trace. -/
def beforeAll (p q : StartupEv → Bool) (tr : List StartupEv) : Prop :=
  ∀ (i j : Nat) (hi : i < tr.length) (hj : j < tr.length),
    p (tr.get ⟨i, hi⟩) = true → q (tr.get ⟨j, hj⟩) = true → i < j

/-- A lossless (blocking-send) operation: it never drops a value, it enqueues
one message at the tail of the outbound channel whenever the channel has room
(the old contents are intact as the prefix, so nothing is lost), and on a
full channel it waits — the channel is untouched and the value retained. -/
def blockingSendOp {α : Type} (op : MsgrState α → SendOutcome α) : Prop :=
  ∀ s : MsgrState α,
    (op s).isDropped = false ∧
    (s.taskQueue.isFull = false →
      op s = SendOutcome.sent ((op s).state) ∧
      ((op s).state).taskQueue.items.dropLast = s.taskQueue.items ∧
      ((op s).state).taskQueue.items.length = s.taskQueue.items.length + 1) ∧
    (s.taskQueue.isFull = true →
      op s = SendOutcome.blockedSend ((op s).state) ∧
      ((op s).state).taskQueue = s.taskQueue)

/-- A lossy (non-blocking-send) operation: it never blocks, on a full channel
it returns normally having discarded the value and left the channel contents
unchanged, and otherwise it enqueues immediately at the tail. -/
def lossyNonBlockingOp {α : Type} (op : MsgrState α → SendOutcome α) : Prop :=
  ∀ s : MsgrState α,
    (op s).isBlockedWait = false ∧
    (s.taskQueue.isFull = true →
      op s = SendOutcome.droppedSend ((op s).state) ∧
      ((op s).state).taskQueue = s.taskQueue) ∧
    (s.taskQueue.isFull = false →
      op s = SendOutcome.sent ((op s).state) ∧
      ((op s).state).taskQueue.items.dropLast = s.taskQueue.items ∧
      ((op s).state).taskQueue.items.length = s.taskQueue.items.length + 1)

/-- Concrete envelope used by the witnesses: parents 1 and 2 have stamped
their values. -/
def exEnv : Env Nat := [(1, 11), (2, 22)]

/-- A capacity-10 channel holding 10 undrained items (full). -/
def exFullQueue : BQueue (Option (Env Nat)) :=
  { capacity := 10, items := List.replicate 10 none }

/-- The same channel after one item was removed. -/
def exDrainedQueue : BQueue (Option (Env Nat)) :=
  { capacity := 10, items := List.replicate 9 none }

/-- A capacity-10 channel with nothing in it. -/
def exEmptyQueue : BQueue (Option (Env Nat)) :=
  { capacity := 10, items := [] }

/-- An inbound channel holding one envelope. -/
def exRecvQueue : BQueue (Option (Env Nat)) :=
  { capacity := 10, items := [some exEnv] }

/-- Messenger of node 3 (parents 1, 2) whose outbound channel is full. -/
def exMsgrFull : MsgrState Nat :=
  { nodeId := 3, parentIds := [1, 2], taskQueue := exFullQueue
  , parentQueue := exEmptyQueue, lastReceived := none }

/-- The same messenger after the consumer removed one outbound item. -/
def exMsgrDrained : MsgrState Nat :=
  { exMsgrFull with taskQueue := exDrainedQueue }

/-- Messenger of node 3 with room outbound and an envelope already received. -/
def exMsgrRoom : MsgrState Nat :=
  { exMsgrFull with taskQueue := exEmptyQueue, lastReceived := some exEnv }

/-- Messenger of node 3 with one inbound envelope pending. -/
def exMsgrRecv : MsgrState Nat :=
  { exMsgrFull with parentQueue := exRecvQueue }

/-- Node used by the passthrough-before-receive witness. -/
def exNode10 : NodeInfo := { id := 5, parents := some [4] }

/-- Inbound channel holding the `None` envelope. -/
def exRecvNoneQueue : BQueue (Option (Env Nat)) :=
  { capacity := 10, items := [none] }

/-- Messenger of node 5 (parent 4) whose pending inbound item is `None`. -/
def exMsgrNoneRecv : MsgrState Nat :=
  { nodeId := 5, parentIds := [4], taskQueue := exEmptyQueue
  , parentQueue := exRecvNoneQueue, lastReceived := none }

/-- Shared run state with the termination event still unset. -/
def exSys : SysState Nat :=
  { term := false, batchM := exMsgrRoom, rtM := exMsgrRoom }

/-- Shared run state with the termination event already set. -/
def exSysT : SysState Nat :=
  { term := true, batchM := exMsgrRoom, rtM := exMsgrRoom }

/-- Sample steady-state operations run after termination was signalled. -/
def exOps : List (Op Nat) :=
  [Op.batchPublish 5, Op.rtPassthrough, Op.batchReceive, Op.joinTaskProcesses]

/-- A GPU-requesting transform task. -/
def exGpuTask1 : TaskData :=
  { kind := NodeKind.processor, nodeId := 11, parentId := some 10
  , hasChildren := true, deviceType := DeviceType.gpu, changeDeviceSucceeds := true }

/-- A second GPU-requesting transform task. -/
def exGpuTask2 : TaskData :=
  { exGpuTask1 with nodeId := 12, parentId := some 11 }

/-- A third GPU-requesting transform task. -/
def exGpuTask3 : TaskData :=
  { exGpuTask1 with nodeId := 13, parentId := some 12 }

/-- Three GPU-requesting transform tasks in topology order. -/
def exTasks3 : List TaskData := [exGpuTask1, exGpuTask2, exGpuTask3]

/-- A GPU-requesting transform task whose downgrade to CPU fails. -/
def exBadTask : TaskData :=
  { exGpuTask1 with nodeId := 19, changeDeviceSucceeds := false }

/-- A producer entry of a flattened topology. -/
def exProducerA : TaskData :=
  { kind := NodeKind.producer, nodeId := 1, parentId := none
  , hasChildren := true, deviceType := DeviceType.cpu, changeDeviceSucceeds := true }

/-- A consumer entry fed by the producer. -/
def exConsumerB : TaskData :=
  { kind := NodeKind.consumer, nodeId := 2, parentId := some 1
  , hasChildren := false, deviceType := DeviceType.cpu, changeDeviceSucceeds := true }

/-- A two-entry flattened topology. -/
def exTopology : List TaskData := [exProducerA, exConsumerB]

theorem blocking_batch_publish {α : Type} (v : α) :
    blockingSendOp (fun s : MsgrState α => BatchprocessingQueueMessenger.publish_message s v) := by
  intro s
  refine ⟨?_, fun hfull => ?_, fun hfull => ?_⟩
  · cases hlr : s.lastReceived <;> cases hfull : s.taskQueue.isFull <;>
      simp [BatchprocessingQueueMessenger.publish_message, hlr, BQueue.putBlocking,
        hfull, SendOutcome.isDropped]
  · cases hlr : s.lastReceived <;>
      simp [BatchprocessingQueueMessenger.publish_message, hlr, BQueue.putBlocking,
        hfull, BQueue.enqueue, SendOutcome.state, List.dropLast_concat]
  · cases hlr : s.lastReceived <;>
      simp [BatchprocessingQueueMessenger.publish_message, hlr, BQueue.putBlocking,
        hfull, SendOutcome.state]

theorem blocking_batch_passthrough {α : Type} :
    blockingSendOp (fun s : MsgrState α => BatchprocessingQueueMessenger.passthrough_message s) := by
  intro s
  refine ⟨?_, fun hfull => ?_, fun hfull => ?_⟩
  · cases hfull : s.taskQueue.isFull <;>
      simp [BatchprocessingQueueMessenger.passthrough_message, BQueue.putBlocking,
        hfull, SendOutcome.isDropped]
  · simp [BatchprocessingQueueMessenger.passthrough_message, BQueue.putBlocking,
      hfull, BQueue.enqueue, SendOutcome.state, List.dropLast_concat]
  · simp [BatchprocessingQueueMessenger.passthrough_message, BQueue.putBlocking,
      hfull, SendOutcome.state]

theorem blocking_rt_publish_termination {α : Type} (v : α) :
    blockingSendOp (fun s : MsgrState α => RealtimeQueueMessenger.publish_termination_message s v) := by
  intro s
  refine ⟨?_, fun hfull => ?_, fun hfull => ?_⟩
  · cases hlr : s.lastReceived <;> cases hfull : s.taskQueue.isFull <;>
      simp [RealtimeQueueMessenger.publish_termination_message, hlr, BQueue.putBlocking,
        hfull, SendOutcome.isDropped]
  · cases hlr : s.lastReceived <;>
      simp [RealtimeQueueMessenger.publish_termination_message, hlr, BQueue.putBlocking,
        hfull, BQueue.enqueue, SendOutcome.state, List.dropLast_concat]
  · cases hlr : s.lastReceived <;>
      simp [RealtimeQueueMessenger.publish_termination_message, hlr, BQueue.putBlocking,
        hfull, SendOutcome.state]

theorem blocking_rt_passthrough_termination {α : Type} :
    blockingSendOp (fun s : MsgrState α => RealtimeQueueMessenger.passthrough_termination_message s) := by
  intro s
  refine ⟨?_, fun hfull => ?_, fun hfull => ?_⟩
  · cases hfull : s.taskQueue.isFull <;>
      simp [RealtimeQueueMessenger.passthrough_termination_message, BQueue.putBlocking,
        hfull, SendOutcome.isDropped]
  · simp [RealtimeQueueMessenger.passthrough_termination_message, BQueue.putBlocking,
      hfull, BQueue.enqueue, SendOutcome.state, List.dropLast_concat]
  · simp [RealtimeQueueMessenger.passthrough_termination_message, BQueue.putBlocking,
      hfull, SendOutcome.state]

theorem lossy_rt_publish {α : Type} (v : α) :
    lossyNonBlockingOp (fun s : MsgrState α => RealtimeQueueMessenger.publish_message s v) := by
  intro s
  refine ⟨?_, fun hfull => ?_, fun hfull => ?_⟩
  · cases hlr : s.lastReceived <;> cases hfull : s.taskQueue.isFull <;>
      simp [RealtimeQueueMessenger.publish_message, hlr, BQueue.putNonBlocking,
        hfull, SendOutcome.isBlockedWait]
  · cases hlr : s.lastReceived <;>
      simp [RealtimeQueueMessenger.publish_message, hlr, BQueue.putNonBlocking,
        hfull, SendOutcome.state]
  · cases hlr : s.lastReceived <;>
      simp [RealtimeQueueMessenger.publish_message, hlr, BQueue.putNonBlocking,
        hfull, BQueue.enqueue, SendOutcome.state, List.dropLast_concat]

theorem lossy_rt_passthrough {α : Type} :
    lossyNonBlockingOp (fun s : MsgrState α => RealtimeQueueMessenger.passthrough_message s) := by
  intro s
  refine ⟨?_, fun hfull => ?_, fun hfull => ?_⟩
  · cases hfull : s.taskQueue.isFull <;>
      simp [RealtimeQueueMessenger.passthrough_message, BQueue.putNonBlocking,
        hfull, SendOutcome.isBlockedWait]
  · simp [RealtimeQueueMessenger.passthrough_message, BQueue.putNonBlocking,
      hfull, SendOutcome.state]
  · simp [RealtimeQueueMessenger.passthrough_message, BQueue.putNonBlocking,
      hfull, BQueue.enqueue, SendOutcome.state, List.dropLast_concat]

/-- Claim C1: under the lossless (batch) policy, every send operation of the
messenger — `publish_message`, `publish_termination_message`,
`passthrough_message`, `passthrough_termination_message` — is a blocking
enqueue on the bounded outbound channel: whenever the channel has room the
message is appended at the tail with the old contents intact, on a full
channel the operation waits without touching the channel, and no message is
ever dropped. -/
theorem batch_messenger_all_sends_blocking :
    ∀ (α : Type) (v : α),
      blockingSendOp (fun s : MsgrState α => BatchprocessingQueueMessenger.publish_message s v) ∧
      blockingSendOp (fun s : MsgrState α => BatchprocessingQueueMessenger.publish_termination_message s v) ∧
      blockingSendOp (fun s : MsgrState α => BatchprocessingQueueMessenger.passthrough_message s) ∧
      blockingSendOp (fun s : MsgrState α => BatchprocessingQueueMessenger.passthrough_termination_message s) :=
  fun _ v =>
    ⟨blocking_batch_publish v, blocking_batch_publish v,
     blocking_batch_passthrough, blocking_batch_passthrough⟩

/-- Witness for C1 at capacity 10: the 11th publish on an undrained channel
(10 items) waits leaving the channel unchanged; after one item is removed the
same publish enqueues, growing the channel back to 10 items. -/
theorem batch_messenger_all_sends_blocking_witness :
    (BatchprocessingQueueMessenger.publish_message exMsgrFull 7 =
        SendOutcome.blockedSend ((BatchprocessingQueueMessenger.publish_message exMsgrFull 7).state) ∧
      ((BatchprocessingQueueMessenger.publish_message exMsgrFull 7).state).taskQueue =
        exMsgrFull.taskQueue) ∧
    (BatchprocessingQueueMessenger.publish_message exMsgrDrained 7 =
        SendOutcome.sent ((BatchprocessingQueueMessenger.publish_message exMsgrDrained 7).state) ∧
      ((BatchprocessingQueueMessenger.publish_message exMsgrDrained 7).state).taskQueue.items.dropLast =
        exMsgrDrained.taskQueue.items ∧
      ((BatchprocessingQueueMessenger.publish_message exMsgrDrained 7).state).taskQueue.items.length =
        exMsgrDrained.taskQueue.items.length + 1) :=
  ⟨((batch_messenger_all_sends_blocking Nat 7).1 exMsgrFull).2.2 (by decide),
   ((batch_messenger_all_sends_blocking Nat 7).1 exMsgrDrained).2.1 (by decide)⟩

/-- Claim C2: under the lossy (realtime) policy, `publish_message` and
`passthrough_message` attempt a non-blocking enqueue: when the outbound
channel is full the new value is silently discarded (the swallowed `Full`
is the normal `droppedSend` return, no exception reaches the caller), the
channel contents are left unchanged, and the operation never blocks. -/
theorem realtime_publish_passthrough_lossy :
    ∀ (α : Type) (v : α),
      lossyNonBlockingOp (fun s : MsgrState α => RealtimeQueueMessenger.publish_message s v) ∧
      lossyNonBlockingOp (fun s : MsgrState α => RealtimeQueueMessenger.passthrough_message s) :=
  fun _ v => ⟨lossy_rt_publish v, lossy_rt_passthrough⟩

/-- Witness for C2 at capacity 10: the 11th lossy publish on an undrained
channel returns at once having discarded the value and left the channel
unchanged; with room the publish enqueues immediately. -/
theorem realtime_publish_passthrough_lossy_witness :
    (RealtimeQueueMessenger.publish_message exMsgrFull 7 =
        SendOutcome.droppedSend ((RealtimeQueueMessenger.publish_message exMsgrFull 7).state) ∧
      ((RealtimeQueueMessenger.publish_message exMsgrFull 7).state).taskQueue =
        exMsgrFull.taskQueue) ∧
    (RealtimeQueueMessenger.publish_message exMsgrRoom 7 =
        SendOutcome.sent ((RealtimeQueueMessenger.publish_message exMsgrRoom 7).state) ∧
      ((RealtimeQueueMessenger.publish_message exMsgrRoom 7).state).taskQueue.items.dropLast =
        exMsgrRoom.taskQueue.items ∧
      ((RealtimeQueueMessenger.publish_message exMsgrRoom 7).state).taskQueue.items.length =
        exMsgrRoom.taskQueue.items.length + 1) :=
  ⟨((realtime_publish_passthrough_lossy Nat 7).1 exMsgrFull).2.1 (by decide),
   ((realtime_publish_passthrough_lossy Nat 7).1 exMsgrRoom).2.2 (by decide)⟩

/-- Claim C3: under the lossy (realtime) policy,
`publish_termination_message` and `passthrough_termination_message` use the
blocking send path: on a full channel they wait without discarding the
envelope, and they enqueue it as soon as the channel has room — the
termination envelope is never dropped for fullness. -/
theorem realtime_termination_sends_blocking :
    ∀ (α : Type) (v : α),
      blockingSendOp (fun s : MsgrState α => RealtimeQueueMessenger.publish_termination_message s v) ∧
      blockingSendOp (fun s : MsgrState α => RealtimeQueueMessenger.passthrough_termination_message s) :=
  fun _ v => ⟨blocking_rt_publish_termination v, blocking_rt_passthrough_termination⟩

/-- Witness for C3: on the full channel the realtime termination publish
waits (channel untouched, nothing dropped); once one item is removed it
enqueues. -/
theorem realtime_termination_sends_blocking_witness :
    (RealtimeQueueMessenger.publish_termination_message exMsgrFull 7 =
        SendOutcome.blockedSend ((RealtimeQueueMessenger.publish_termination_message exMsgrFull 7).state) ∧
      ((RealtimeQueueMessenger.publish_termination_message exMsgrFull 7).state).taskQueue =
        exMsgrFull.taskQueue) ∧
    (RealtimeQueueMessenger.passthrough_termination_message exMsgrDrained =
        SendOutcome.sent ((RealtimeQueueMessenger.passthrough_termination_message exMsgrDrained).state) ∧
      ((RealtimeQueueMessenger.passthrough_termination_message exMsgrDrained).state).taskQueue.items.dropLast =
        exMsgrDrained.taskQueue.items ∧
      ((RealtimeQueueMessenger.passthrough_termination_message exMsgrDrained).state).taskQueue.items.length =
        exMsgrDrained.taskQueue.items.length + 1) :=
  ⟨((realtime_termination_sends_blocking Nat 7).1 exMsgrFull).2.2 (by decide),
   ((realtime_termination_sends_blocking Nat 7).2 exMsgrDrained).2.1 (by decide)⟩

theorem Env.get_set_self {α : Type} (e : Env α) (k : Nat) (v : α) :
    Env.get? (Env.set e k v) k = some v := by
  induction e with
  | nil => simp [Env.set, Env.get?]
  | cons hd tl ih =>
    obtain ⟨k', v'⟩ := hd
    by_cases h : k' = k
    · subst h
      simp [Env.set, Env.get?]
    · simp [Env.set, Env.get?, h, ih]

theorem Env.get_set_other {α : Type} (e : Env α) (k a : Nat) (v : α) (h : a ≠ k) :
    Env.get? (Env.set e k v) a = Env.get? e a := by
  have h' : ¬(k = a) := fun hh => h hh.symm
  induction e with
  | nil => simp [Env.set, Env.get?, h']
  | cons hd tl ih =>
    obtain ⟨k', v'⟩ := hd
    by_cases hk : k' = k
    · subst hk
      simp [Env.set, Env.get?, h']
    · simp [Env.set, Env.get?, hk, ih]

/-- Claim C4: for both messenger implementations, `publish_message v` sends a
fresh one-entry envelope mapping the node's own id to `v` when nothing has
been received yet, and otherwise stamps `v` under the node's own id into the
last-received envelope and sends that envelope; stamping preserves every
other entry, so ancestor values already in the envelope are unchanged, and
the own entry reads back the published value. -/
theorem publish_envelope_construction :
    ∀ (α : Type) (s : MsgrState α) (v : α),
      (s.lastReceived = none → s.taskQueue.isFull = false →
        BatchprocessingQueueMessenger.publish_message s v =
          SendOutcome.sent { s with taskQueue := s.taskQueue.enqueue (some [(s.nodeId, v)]) } ∧
        RealtimeQueueMessenger.publish_message s v =
          SendOutcome.sent { s with taskQueue := s.taskQueue.enqueue (some [(s.nodeId, v)]) }) ∧
      (∀ e : Env α, s.lastReceived = some e → s.taskQueue.isFull = false →
        BatchprocessingQueueMessenger.publish_message s v =
          SendOutcome.sent
            { s with
                lastReceived := some (Env.set e s.nodeId v),
                taskQueue := s.taskQueue.enqueue (some (Env.set e s.nodeId v)) } ∧
        RealtimeQueueMessenger.publish_message s v =
          SendOutcome.sent
            { s with
                lastReceived := some (Env.set e s.nodeId v),
                taskQueue := s.taskQueue.enqueue (some (Env.set e s.nodeId v)) }) ∧
      (∀ (e : Env α) (a : Nat), a ≠ s.nodeId →
        Env.get? (Env.set e s.nodeId v) a = Env.get? e a) ∧
      (∀ e : Env α, Env.get? (Env.set e s.nodeId v) s.nodeId = some v) := by
  intro α s v
  refine ⟨fun hlr hfull => ⟨?_, ?_⟩, fun e hlr hfull => ⟨?_, ?_⟩, ?_, ?_⟩
  · simp [BatchprocessingQueueMessenger.publish_message, hlr, BQueue.putBlocking, hfull]
  · simp [RealtimeQueueMessenger.publish_message, hlr, BQueue.putNonBlocking, hfull]
  · simp [BatchprocessingQueueMessenger.publish_message, hlr, BQueue.putBlocking, hfull]
  · simp [RealtimeQueueMessenger.publish_message, hlr, BQueue.putNonBlocking, hfull]
  · exact fun e a ha => Env.get_set_other e s.nodeId a v ha
  · exact fun e => Env.get_set_self e s.nodeId v

/-- Witness for C4: node 3 stamps value 7 into the received envelope of
parents 1 and 2 and sends it; the entries of parents 1 and 2 read back
unchanged and the own entry reads 7. -/
theorem publish_envelope_construction_witness :
    (BatchprocessingQueueMessenger.publish_message exMsgrRoom 7 =
      SendOutcome.sent
        { exMsgrRoom with
            lastReceived := some (Env.set exEnv 3 7),
            taskQueue := exMsgrRoom.taskQueue.enqueue (some (Env.set exEnv 3 7)) }) ∧
    Env.get? (Env.set exEnv 3 7) 1 = Env.get? exEnv 1 ∧
    Env.get? (Env.set exEnv 3 7) 3 = some 7 :=
  ⟨(((publish_envelope_construction Nat exMsgrRoom 7).2.1 exEnv (by decide) (by decide)).1),
   (publish_envelope_construction Nat exMsgrRoom 7).2.2.1 exEnv 1 (by decide),
   (publish_envelope_construction Nat exMsgrRoom 7).2.2.2 exEnv⟩

theorem lookupAll_eq_mapM {α : Type} (e : Env α) :
    ∀ ids : List Nat, lookupAll (some e) ids = ids.mapM (Env.get? e) := by
  intro ids
  induction ids with
  | nil => rfl
  | cons a rest ih =>
    rw [List.mapM_cons]
    simp only [lookupAll, ih]
    cases h1 : Env.get? e a <;> cases h2 : rest.mapM (Env.get? e) <;> simp

theorem lookupAll_none_of_mem {α : Type} (e : Env α) (a : Nat) :
    ∀ ids : List Nat, a ∈ ids → Env.get? e a = none → lookupAll (some e) ids = none := by
  intro ids
  induction ids with
  | nil => intro h; cases h
  | cons b rest ih =>
    intro hmem hget
    rcases List.mem_cons.mp hmem with rfl | hmem'
    · simp [lookupAll, hget]
    · rw [lookupAll]
      rw [ih hmem' hget]
      cases Env.get? e b <;> simp

/-- Claim C5: for both messenger implementations, `receive_message` is a
blocking read of the next envelope from the inbound channel; it records the
envelope as last-received, pops it from the channel, and returns exactly the
values obtained by indexing the envelope at the node's parent ids in order
(`List.mapM` of the dict lookup); a parent id absent from the envelope makes
the whole operation fail (`raisedError`) rather than return a partial
result. -/
theorem receive_message_semantics :
    ∀ (α : Type) (s : MsgrState α),
      (s.parentQueue.items = [] →
        BatchprocessingQueueMessenger.receive_message s = RecvOutcome.blockedRecv ∧
        RealtimeQueueMessenger.receive_message s = RecvOutcome.blockedRecv) ∧
      (∀ (m : Option (Env α)) (rest : List (Option (Env α))),
        s.parentQueue.items = m :: rest →
        (∀ vals : List α, lookupAll m s.parentIds = some vals →
          BatchprocessingQueueMessenger.receive_message s =
            RecvOutcome.ok vals
              { s with
                  parentQueue := { s.parentQueue with items := rest },
                  lastReceived := m } ∧
          RealtimeQueueMessenger.receive_message s =
            RecvOutcome.ok vals
              { s with
                  parentQueue := { s.parentQueue with items := rest },
                  lastReceived := m }) ∧
        (lookupAll m s.parentIds = none →
          BatchprocessingQueueMessenger.receive_message s =
            RecvOutcome.raisedError
              { s with
                  parentQueue := { s.parentQueue with items := rest },
                  lastReceived := m } ∧
          RealtimeQueueMessenger.receive_message s =
            RecvOutcome.raisedError
              { s with
                  parentQueue := { s.parentQueue with items := rest },
                  lastReceived := m })) ∧
      (∀ (e : Env α) (ids : List Nat), lookupAll (some e) ids = ids.mapM (Env.get? e)) ∧
      (∀ (e : Env α) (a : Nat) (ids : List Nat), a ∈ ids → Env.get? e a = none →
        lookupAll (some e) ids = none) := by
  intro α s
  refine ⟨fun hemp => ⟨?_, ?_⟩, fun m rest hcons => ⟨fun vals hv => ⟨?_, ?_⟩, fun hv => ⟨?_, ?_⟩⟩,
    fun e ids => lookupAll_eq_mapM e ids, fun e a ids => lookupAll_none_of_mem e a ids⟩
  · simp [BatchprocessingQueueMessenger.receive_message, BQueue.get?, hemp]
  · simp [RealtimeQueueMessenger.receive_message, BQueue.get?, hemp]
  · simp [BatchprocessingQueueMessenger.receive_message, BQueue.get?, hcons, hv]
  · simp [RealtimeQueueMessenger.receive_message, BQueue.get?, hcons, hv]
  · simp [BatchprocessingQueueMessenger.receive_message, BQueue.get?, hcons, hv]
  · simp [RealtimeQueueMessenger.receive_message, BQueue.get?, hcons, hv]

/-- Witness for C5: node 3 with parents 1 and 2 receives the pending envelope
and gets back exactly the parents' values 11 and 22 in parent order, with the
envelope recorded as last-received and popped from the inbound channel. -/
theorem receive_message_semantics_witness :
    BatchprocessingQueueMessenger.receive_message exMsgrRecv =
      RecvOutcome.ok [11, 22]
        { exMsgrRecv with
            parentQueue := { exMsgrRecv.parentQueue with items := [] },
            lastReceived := some exEnv } ∧
    RealtimeQueueMessenger.receive_message exMsgrRecv =
      RecvOutcome.ok [11, 22]
        { exMsgrRecv with
            parentQueue := { exMsgrRecv.parentQueue with items := [] },
            lastReceived := some exEnv } :=
  ((receive_message_semantics Nat exMsgrRecv).2.1 (some exEnv) [] (by decide)).1
    [11, 22] (by decide)

/-- Claim C10: for both messenger implementations a passthrough before any
receive (fresh messenger, last-received still `None`) does not fail and does
not skip the send: with room on the outbound channel, batch
`passthrough_message`, realtime `passthrough_message` and realtime
`passthrough_termination_message` all enqueue the `None` envelope; a
downstream receive of that `None` envelope fails (it is not a mapping)
whenever the receiver has at least one parent id to look up. -/
theorem passthrough_before_receive_enqueues_none :
    ∀ (α : Type) (node : NodeInfo) (tq pq : BQueue (Option (Env α))),
      tq.isFull = false →
      (BatchprocessingQueueMessenger.passthrough_message (mkMsgrState node tq pq) =
        SendOutcome.sent { mkMsgrState (α := α) node tq pq with taskQueue := tq.enqueue none } ∧
       RealtimeQueueMessenger.passthrough_message (mkMsgrState node tq pq) =
        SendOutcome.sent { mkMsgrState (α := α) node tq pq with taskQueue := tq.enqueue none } ∧
       RealtimeQueueMessenger.passthrough_termination_message (mkMsgrState node tq pq) =
        SendOutcome.sent { mkMsgrState (α := α) node tq pq with taskQueue := tq.enqueue none }) ∧
      (∀ (s2 : MsgrState α) (rest : List (Option (Env α))),
        s2.parentQueue.items = none :: rest → s2.parentIds ≠ [] →
        BatchprocessingQueueMessenger.receive_message s2 =
          RecvOutcome.raisedError
            { s2 with
                parentQueue := { s2.parentQueue with items := rest },
                lastReceived := none } ∧
        RealtimeQueueMessenger.receive_message s2 =
          RecvOutcome.raisedError
            { s2 with
                parentQueue := { s2.parentQueue with items := rest },
                lastReceived := none }) := by
  intro α node tq pq hfull
  refine ⟨⟨?_, ?_, ?_⟩, fun s2 rest hcons hpar => ?_⟩
  · simp [BatchprocessingQueueMessenger.passthrough_message, mkMsgrState,
      BQueue.putBlocking, hfull]
  · simp [RealtimeQueueMessenger.passthrough_message, mkMsgrState,
      BQueue.putNonBlocking, hfull]
  · simp [RealtimeQueueMessenger.passthrough_termination_message, mkMsgrState,
      BQueue.putBlocking, hfull]
  · have hlk : lookupAll (none : Option (Env α)) s2.parentIds = none := by
      cases hp : s2.parentIds with
      | nil => exact absurd hp hpar
      | cons a l => rfl
    exact ⟨by simp [BatchprocessingQueueMessenger.receive_message, BQueue.get?, hcons, hlk],
           by simp [RealtimeQueueMessenger.receive_message, BQueue.get?, hcons, hlk]⟩

/-- Witness for C10: a fresh messenger of node 5 passes through before any
receive, enqueueing `None`; the downstream messenger with parent id 4 then
fails on receiving that `None`. -/
theorem passthrough_before_receive_enqueues_none_witness :
    (BatchprocessingQueueMessenger.passthrough_message
        (mkMsgrState exNode10 exEmptyQueue exEmptyQueue) =
      SendOutcome.sent
        { mkMsgrState (α := Nat) exNode10 exEmptyQueue exEmptyQueue with
            taskQueue := exEmptyQueue.enqueue none }) ∧
    BatchprocessingQueueMessenger.receive_message exMsgrNoneRecv =
      RecvOutcome.raisedError
        { exMsgrNoneRecv with
            parentQueue := { exMsgrNoneRecv.parentQueue with items := [] },
            lastReceived := none } :=
  ⟨(passthrough_before_receive_enqueues_none Nat exNode10 exEmptyQueue exEmptyQueue
      (by decide)).1.1,
   ((passthrough_before_receive_enqueues_none Nat exNode10 exEmptyQueue exEmptyQueue
      (by decide)).2 exMsgrNoneRecv [] (by decide) (by decide)).1⟩

theorem applyOp_term_true {α : Type} (s : SysState α) (op : Op α) (h : s.term = true) :
    (applyOp s op).term = true := by
  cases op <;>
    simp [applyOp, QueueExecutionEnvironment.signal_flow_termination, eventSet, h]

theorem foldl_term_true {α : Type} (ops : List (Op α)) :
    ∀ s : SysState α, s.term = true → (List.foldl applyOp s ops).term = true := by
  induction ops with
  | nil => intro s h; simpa using h
  | cons op rest ih =>
    intro s h
    simpa [List.foldl] using ih (applyOp s op) (applyOp_term_true s op h)

/-- Claim C7: the termination signal starts unset (`Event()`), the
environment's `signal_flow_termination` sets it, no steady-state operation of
either messenger or of the environment ever clears it, and therefore after
`signal_flow_termination` every later `check_for_termination` on either
messenger returns true for the remainder of the run. -/
theorem termination_signal_monotonic :
    ∀ α : Type,
      (∀ b r : MsgrState α, (SysState.mk newTerminationEvent b r).term = false) ∧
      (∀ s : SysState α, (applyOp s Op.signalFlowTermination).term = true) ∧
      (∀ (s : SysState α) (op : Op α), s.term = true → (applyOp s op).term = true) ∧
      (∀ (s : SysState α) (ops : List (Op α)),
        BatchprocessingQueueMessenger.check_for_termination
            (List.foldl applyOp (applyOp s Op.signalFlowTermination) ops).term = true ∧
        RealtimeQueueMessenger.check_for_termination
            (List.foldl applyOp (applyOp s Op.signalFlowTermination) ops).term = true) := by
  intro α
  refine ⟨fun b r => rfl, fun s => rfl, applyOp_term_true, fun s ops => ?_⟩
  have h : (List.foldl applyOp (applyOp s Op.signalFlowTermination) ops).term = true :=
    foldl_term_true ops _ rfl
  exact ⟨h, h⟩

/-- Witness for C7: a fresh run state has the signal unset; setting it and
then running a batch publish, a realtime passthrough, a batch receive and a
join leaves every messenger's `check_for_termination` true; one step on an
already-set state keeps it set. -/
theorem termination_signal_monotonic_witness :
    (SysState.mk newTerminationEvent exMsgrRoom exMsgrRoom).term = false ∧
    (applyOp exSysT (Op.batchPublish 5)).term = true ∧
    BatchprocessingQueueMessenger.check_for_termination
        (List.foldl applyOp (applyOp exSys Op.signalFlowTermination) exOps).term = true ∧
    RealtimeQueueMessenger.check_for_termination
        (List.foldl applyOp (applyOp exSys Op.signalFlowTermination) exOps).term = true :=
  ⟨(termination_signal_monotonic Nat).1 exMsgrRoom exMsgrRoom,
   (termination_signal_monotonic Nat).2.2.1 exSysT (Op.batchPublish 5) (by decide),
   ((termination_signal_monotonic Nat).2.2.2 exSys exOps).1,
   ((termination_signal_monotonic Nat).2.2.2 exSys exOps).2⟩

theorem join_loop_spec :
    ∀ (interrupts : List Nat) (i : Nat), (∀ n ∈ interrupts, n ≤ 1) →
      join_loop interrupts i = (List.range' i interrupts.length, false) := by
  intro interrupts
  induction interrupts with
  | nil => intro i _; simp [join_loop, List.range']
  | cons n rest ih =>
    intro i h
    have hn : n ≤ 1 := h n (List.mem_cons_self n rest)
    have hrest : ∀ m ∈ rest, m ≤ 1 := fun m hm => h m (List.mem_cons_of_mem n hm)
    have hr := ih (i + 1) hrest
    rcases Nat.le_one_iff_eq_zero_or_eq_one.mp hn with rfl | rfl <;>
      simp [join_loop, hr, List.range'_succ]

/-- Claim C9: `join_task_processes` waits for every unit in turn; a wait
interrupted by a single external `KeyboardInterrupt` is absorbed (the
interrupt is not propagated to the caller) and the wait on that unit is
retried, after which joining proceeds to the remaining units — so with at
most one interrupt delivered per unit, every unit is joined in order and no
interrupt escapes. -/
theorem join_absorbs_single_interrupts :
    ∀ interrupts : List Nat, (∀ n ∈ interrupts, n ≤ 1) →
      join_task_processes interrupts = (List.range interrupts.length, false) := by
  intro interrupts h
  rw [join_task_processes, join_loop_spec interrupts 0 h, List.range_eq_range']

/-- Witness for C9: three units, the second interrupted once during its
join: all three are joined in order and no interrupt reaches the caller. -/
theorem join_absorbs_single_interrupts_witness :
    join_task_processes [0, 1, 0] = (List.range 3, false) ∧
    List.range 3 = [0, 1, 2] :=
  ⟨join_absorbs_single_interrupts [0, 1, 0] (by decide), by decide⟩

theorem chan_evs_class (td : List TaskData) :
    ∀ e ∈ td.map (fun d => StartupEv.channelCreated d.nodeId),
      isConstructionEvent e = false ∧ isProcessCreated e = false ∧
        isProcessStarted e = false := by
  intro e he
  obtain ⟨d, -, rfl⟩ := List.mem_map.mp he
  exact ⟨rfl, rfl, rfl⟩

theorem construction_evs_class (td : List TaskData) :
    ∀ e ∈ td.flatMap constructionEvsOf,
      isChannelCreated e = false ∧ isProcessCreated e = false ∧
        isProcessStarted e = false := by
  intro e he
  obtain ⟨d, -, hm⟩ := List.mem_flatMap.mp he
  simp only [constructionEvsOf, List.mem_cons, List.not_mem_nil, or_false] at hm
  rcases hm with rfl | rfl <;> exact ⟨rfl, rfl, rfl⟩

theorem created_evs_class (ns : List Nat) :
    ∀ e ∈ ns.map StartupEv.processCreated,
      isChannelCreated e = false ∧ isConstructionEvent e = false ∧
        isProcessStarted e = false := by
  intro e he
  obtain ⟨n, -, rfl⟩ := List.mem_map.mp he
  exact ⟨rfl, rfl, rfl⟩

theorem started_evs_class (ns : List Nat) :
    ∀ e ∈ ns.map StartupEv.processStarted,
      isChannelCreated e = false ∧ isConstructionEvent e = false ∧
        isProcessCreated e = false := by
  intro e he
  obtain ⟨n, -, rfl⟩ := List.mem_map.mp he
  exact ⟨rfl, rfl, rfl⟩

theorem beforeAll_of_split (p q : StartupEv → Bool) (tr xs ys : List StartupEv)
    (h : tr = xs ++ ys) (hp : ∀ e ∈ ys, p e = false) (hq : ∀ e ∈ xs, q e = false) :
    beforeAll p q tr := by
  subst h
  intro i j hi hj hpi hqj
  simp only [List.get_eq_getElem] at hpi hqj
  rcases Nat.lt_or_ge i xs.length with hilt | hige
  · rcases Nat.lt_or_ge j xs.length with hjlt | hjge
    · exfalso
      rw [List.getElem_append_left hjlt] at hqj
      rw [hq _ (List.getElem_mem hjlt)] at hqj
      exact Bool.false_ne_true hqj
    · exact lt_of_lt_of_le hilt hjge
  · exfalso
    rw [List.getElem_append_right hige] at hpi
    rw [hp _ (List.getElem_mem (by
      have := List.length_append xs ys
      omega))] at hpi
    exact Bool.false_ne_true hpi

theorem filter_started_chan (td : List TaskData) :
    (td.map (fun d => StartupEv.channelCreated d.nodeId)).filter isProcessStarted = [] :=
  List.filter_eq_nil_iff.mpr (fun e he => by simp [(chan_evs_class td e he).2.2])

theorem filter_started_construction (td : List TaskData) :
    (td.flatMap constructionEvsOf).filter isProcessStarted = [] :=
  List.filter_eq_nil_iff.mpr (fun e he => by simp [(construction_evs_class td e he).2.2])

theorem filter_started_created (ns : List Nat) :
    (ns.map StartupEv.processCreated).filter isProcessStarted = [] :=
  List.filter_eq_nil_iff.mpr (fun e he => by simp [(created_evs_class ns e he).2.2])

theorem filter_created_chan (td : List TaskData) :
    (td.map (fun d => StartupEv.channelCreated d.nodeId)).filter isProcessCreated = [] :=
  List.filter_eq_nil_iff.mpr (fun e he => by simp [(chan_evs_class td e he).2.1])

theorem filter_created_construction (td : List TaskData) :
    (td.flatMap constructionEvsOf).filter isProcessCreated = [] :=
  List.filter_eq_nil_iff.mpr (fun e he => by simp [(construction_evs_class td e he).2.1])

theorem filter_created_started (ns : List Nat) :
    (ns.map StartupEv.processStarted).filter isProcessCreated = [] :=
  List.filter_eq_nil_iff.mpr (fun e he => by simp [(started_evs_class ns e he).2.2])

theorem filter_created_created (ns : List Nat) :
    (ns.map StartupEv.processCreated).filter isProcessCreated = ns.map StartupEv.processCreated :=
  List.filter_eq_self.mpr (fun e he => by
    obtain ⟨n, -, rfl⟩ := List.mem_map.mp he
    rfl)

theorem create_eq_spec :
    ∀ (tasks : List TaskData) (seen k : Nat),
      create_processes tasks ((seen : Int) - 1) (k : Int) = spec_assignment tasks seen k := by
  intro tasks
  induction tasks with
  | nil => intro seen k; rfl
  | cons t rest ih =>
    intro seen k
    have hng : ((seen : Int)) - 1 + 1 = ((seen : Int)) := by ring
    have hnext : (((seen + 1 : Nat) : Int)) - 1 = ((seen : Int)) := by push_cast; ring
    have ih1 : create_processes rest ((seen : Int)) ((k : Int)) = spec_assignment rest (seen + 1) k := by
      have h := ih (seen + 1) k
      rwa [hnext] at h
    by_cases hk : t.kind = NodeKind.processor
    · by_cases hd : t.deviceType = DeviceType.gpu
      · by_cases hlt : seen < k
        · have hlt' : ((seen : Int)) < ((k : Int)) := by exact_mod_cast hlt
          simp [create_processes, spec_assignment, hk, hd, hlt, hng, hlt', ih1]
        · have hlt' : ¬ ((seen : Int)) < ((k : Int)) := by exact_mod_cast hlt
          by_cases hc : t.changeDeviceSucceeds
          · simp [create_processes, spec_assignment, hk, hd, hlt, hng, hlt', hc, ih1]
          · simp [create_processes, spec_assignment, hk, hd, hlt, hng, hlt', hc]
      · simp [create_processes, spec_assignment, hk, hd, ih seen k]
    · simp [create_processes, spec_assignment, hk, ih seen k]

/-- Claim C6: accelerator assignment is sequential and bounded — the GPU
loop of `_al_create_and_start_processes` (threading `_next_gpu` from `-1`)
behaves exactly as the specification's sequential discipline: the i-th
GPU-requesting transform task (1-based) receives GPU index i-1 when i ≤ k for
`k` detected GPUs, later requesting tasks are downgraded to CPU processes,
and a task whose downgrade fails raises so that startup ends in an error with
no process-start event ever emitted. -/
theorem gpu_assignment_sequential_bounded :
    (∀ (tasks : List TaskData) (k : Nat),
      create_processes tasks (-1) ((k : Int)) = spec_assignment tasks 0 k) ∧
    (∀ (td : List TaskData) (g : Int),
      (al_create_and_start_processes td g).error.isSome = true →
      ((al_create_and_start_processes td g).trace).filter isProcessStarted = []) := by
  constructor
  · intro tasks k
    have h := create_eq_spec tasks 0 k
    simpa using h
  · intro td g h
    cases hr : (create_processes td (-1) g).2 with
    | none =>
      have : (al_create_and_start_processes td g).error = none := by
        simp [al_create_and_start_processes, hr]
      rw [this] at h
      simp at h
    | some e =>
      have htr : (al_create_and_start_processes td g).trace =
          td.map (fun d => StartupEv.channelCreated d.nodeId) ++
            ([StartupEv.terminationEventCreated] ++
              (td.flatMap constructionEvsOf ++
                (List.range (create_processes td (-1) g).1.length).map StartupEv.processCreated)) := by
        simp [al_create_and_start_processes, hr]
      rw [htr]
      simp [List.filter_append, filter_started_chan, filter_started_construction,
        filter_started_created, List.filter, isProcessStarted]

/-- Witness for C6: with 2 detected GPUs and 3 requesting tasks, tasks 1 and
2 receive indices 0 and 1 and task 3 becomes a CPU process; with 0 GPUs and
one task that cannot downgrade, startup errors and its trace contains no
process-start event. -/
theorem gpu_assignment_sequential_bounded_witness :
    create_processes exTasks3 (-1) ((2 : Nat) : Int) = spec_assignment exTasks3 0 2 ∧
    create_processes exTasks3 (-1) 2 =
      ([ProcSpec.gpuProc 0, ProcSpec.gpuProc 1, ProcSpec.cpuProc], none) ∧
    ((al_create_and_start_processes [exBadTask] 0).trace).filter isProcessStarted = [] ∧
    (al_create_and_start_processes [exBadTask] 0).error =
      some "No GPU available to allocate" :=
  ⟨gpu_assignment_sequential_bounded.1 exTasks3 2,
   by decide,
   gpu_assignment_sequential_bounded.2 [exBadTask] 0 (by decide),
   by decide⟩

/-- Claim C8: startup ordering in `_al_create_and_start_processes` — every
channel-creation event precedes every messenger/task-construction event,
every process-creation event precedes every process-start event, and the
trace contains one creation event per execution unit, so the start loop runs
only after all units exist. -/
theorem startup_phase_ordering :
    ∀ (td : List TaskData) (g : Int),
      beforeAll isChannelCreated isConstructionEvent
        (al_create_and_start_processes td g).trace ∧
      beforeAll isProcessCreated isProcessStarted
        (al_create_and_start_processes td g).trace ∧
      (((al_create_and_start_processes td g).trace).filter isProcessCreated).length =
        (al_create_and_start_processes td g).procs.length := by
  intro td g
  have hpr : (al_create_and_start_processes td g).procs = (create_processes td (-1) g).1 := by
    cases hr : (create_processes td (-1) g).2 <;>
      simp [al_create_and_start_processes, hr]
  cases hr : (create_processes td (-1) g).2 with
  | some e =>
    have htr : (al_create_and_start_processes td g).trace =
        td.map (fun d => StartupEv.channelCreated d.nodeId) ++
          ([StartupEv.terminationEventCreated] ++
            (td.flatMap constructionEvsOf ++
              (List.range (create_processes td (-1) g).1.length).map StartupEv.processCreated)) := by
      simp [al_create_and_start_processes, hr]
    refine ⟨beforeAll_of_split _ _ _ _ _ htr ?_ ?_, beforeAll_of_split _ _ _
      (td.map (fun d => StartupEv.channelCreated d.nodeId) ++
        ([StartupEv.terminationEventCreated] ++
          (td.flatMap constructionEvsOf ++
            (List.range (create_processes td (-1) g).1.length).map StartupEv.processCreated)))
      [] (by simpa using htr) ?_ ?_, ?_⟩
    · intro e' he'
      simp only [List.mem_append, List.mem_singleton] at he'
      rcases he' with rfl | he' | he'
      · rfl
      · exact (construction_evs_class td e' he').1
      · exact (created_evs_class _ e' he').1
    · exact fun e' he' => (chan_evs_class td e' he').1
    · intro e' he'
      cases he'
    · intro e' he'
      simp only [List.mem_append, List.mem_singleton] at he'
      rcases he' with he' | rfl | he' | he'
      · exact (chan_evs_class td e' he').2.2
      · rfl
      · exact (construction_evs_class td e' he').2.2
      · exact (created_evs_class _ e' he').2.2
    · rw [htr, hpr]
      simp [List.filter_append, filter_created_chan, filter_created_construction,
        filter_created_created, List.filter, isProcessCreated]
  | none =>
    have htr : (al_create_and_start_processes td g).trace =
        (td.map (fun d => StartupEv.channelCreated d.nodeId) ++
          ([StartupEv.terminationEventCreated] ++
            (td.flatMap constructionEvsOf ++
              (List.range (create_processes td (-1) g).1.length).map StartupEv.processCreated))) ++
          (List.range (create_processes td (-1) g).1.length).map StartupEv.processStarted := by
      simp [al_create_and_start_processes, hr]
    refine ⟨beforeAll_of_split _ _ _
      (td.map (fun d => StartupEv.channelCreated d.nodeId))
      (([StartupEv.terminationEventCreated] ++
          (td.flatMap constructionEvsOf ++
            (List.range (create_processes td (-1) g).1.length).map StartupEv.processCreated)) ++
        (List.range (create_processes td (-1) g).1.length).map StartupEv.processStarted)
      (by simpa [List.append_assoc] using htr) ?_ ?_,
      beforeAll_of_split _ _ _ _ _ htr ?_ ?_, ?_⟩
    · intro e' he'
      simp only [List.mem_append, List.mem_singleton] at he'
      rcases he' with (rfl | he' | he') | he'
      · rfl
      · exact (construction_evs_class td e' he').1
      · exact (created_evs_class _ e' he').1
      · exact (started_evs_class _ e' he').1
    · exact fun e' he' => (chan_evs_class td e' he').1
    · exact fun e' he' => (started_evs_class _ e' he').2.2
    · intro e' he'
      simp only [List.mem_append, List.mem_singleton] at he'
      rcases he' with he' | rfl | he' | he'
      · exact (chan_evs_class td e' he').2.2
      · rfl
      · exact (construction_evs_class td e' he').2.2
      · exact (created_evs_class _ e' he').2.2
    · rw [htr, hpr]
      simp [List.filter_append, filter_created_chan, filter_created_construction,
        filter_created_created, filter_created_started, List.filter, isProcessCreated]

/-- Witness for C8 on the two-entry topology: the trace is
channels (indices 0, 1), termination event (2), messenger/task pairs (3-6),
process creations (7, 8), process starts (9, 10); the theorem places the
channel event at 0 before the construction event at 3 and the creation event
at 7 before the start event at 9, and counts exactly 2 creation events. -/
theorem startup_phase_ordering_witness :
    ((0 : Nat) < 3 ∧ (7 : Nat) < 9) ∧
    (((al_create_and_start_processes exTopology 0).trace).filter isProcessCreated).length =
      (al_create_and_start_processes exTopology 0).procs.length :=
  ⟨⟨(startup_phase_ordering exTopology 0).1 0 3 (by decide) (by decide)
      (by decide) (by decide),
    (startup_phase_ordering exTopology 0).2.1 7 9 (by decide) (by decide)
      (by decide) (by decide)⟩,
   (startup_phase_ordering exTopology 0).2.2⟩

end Videoflow
